import Mathlib

/-!
Verification of the CleanLearn what-if analysis
(`demo/feature_overview/clean_learn.py`).

The development shallowly embeds the data model and the two core
algorithms of the module: plan generation (`generate_plans_to_try`) and
report aggregation (`generate_final_report`), together with the two
dataframe transforms (`drop_outliers`, `impute_outliers`).

Modelling conventions:
  * Pandas dataframes are modelled as a list of column names together
    with a list of rows; each row is a pair of its index label and its
    list of cell values.  Index labels are explicit because the two
    transforms address rows through `.index` / `.drop` / `.loc`, whose
    semantics are label based.
  * The outlier predicate (a callable passed to `.loc` and applied to
    the column's series) is modelled as a per-value predicate.
  * Python dicts are modelled as association lists with insertion-order
    update semantics; `dict[key]` lookups that can raise `KeyError`
    return `Option`/`Except`.
  * Exceptions raised by the analysis are modelled with explicit error
    types whose constructor names follow the specification's error
    vocabulary (the Python code raises `Exception` with distinguishing
    messages).
-/

set_option autoImplicit false

/-- Operator kinds of DAG nodes (`mlmq.OperatorType`); constructor set taken
from the kinds used by the source and listed in the specification. -/
inductive OperatorType where
  | SOURCE
  | SELECTION
  | PROJECTION_MODIFY
  | ESTIMATOR_FIT
  | PREDICT
  | SCORE
  deriving DecidableEq

/-- `mlmq.BasicCodeLocation`: a caller tag and an optional source line, as in
the call sites `BasicCodeLocation("Data Cleaning", None)` and
`node.code_location.lineno`. -/
structure BasicCodeLocation where
  caller_filename : String
  lineno : Option Nat
  deriving DecidableEq

/-- `mlmq.OperatorContext`: carries the operator kind.  The second Python
argument (`function_info`) is `None` at every call site in the source and is
omitted. -/
structure OperatorContext where
  operator : OperatorType
  deriving DecidableEq

/-- `mlmq.DagNodeDetails`: human-readable description and optional column
list, as in `DagNodeDetails(f"Clean {column}: filter", None)` and
`score_node.details.description`. -/
structure DagNodeDetails where
  description : Option String
  columns : Option (List String)
  deriving DecidableEq

/-- A pandas dataframe: ordered column names and rows.  Each row is the pair
of its index label and its cells (aligned with `cols`).  Index labels are
modelled explicitly because `drop_outliers` / `impute_outliers` address rows
by label (`.index`, `.drop`, `.loc`). -/
structure DataFrame (α : Type) where
  cols : List String
  rows : List (Nat × List α)
  deriving DecidableEq

/-- `mlmq.DagNode`: identity, code location, operator context, details, the
(always-`None` in this module) optional code reference, and the attached
processing function.  The processing function may fail (pandas `KeyError`),
hence the `Option` result. -/
structure DagNode (α : Type) where
  node_id : Nat
  code_location : BasicCodeLocation
  operator_info : OperatorContext
  details : DagNodeDetails
  optional_code_reference : Option String
  processing_func : Option (DataFrame α → Option (DataFrame α))

/-- The recorded pipeline DAG.  Nodes are kept in the graph's iteration
order.  `feature_columns` models the external graph query
`get_columns_used_as_feature` (see below). -/
structure Graph (α : Type) where
  nodes : List (DagNode α)
  feature_columns : List String

/-- Modelled from the spec: the graph-query collaborator "find nodes by
operator kind" (`mlmq.analysis._analysis_utils.find_nodes_by_type`, whose
code is not under `src/`): it returns the graph's nodes of the given
operator kind, in graph order. -/
def find_nodes_by_type {α : Type} (g : Graph α) (t : OperatorType) : List (DagNode α) :=
  g.nodes.filter (fun n => decide (n.operator_info.operator = t))

/-- Modelled from the spec: the graph-query collaborator "find the set of
columns used as model features"
(`mlmq.analysis._analysis_utils.get_columns_used_as_feature`, whose code is
not under `src/`); modelled as a component of the graph value. -/
def get_columns_used_as_feature {α : Type} (g : Graph α) : List String :=
  g.feature_columns

/-- `ErrorType` enum of the source: the single supported error kind. -/
inductive ErrorType where
  | OUTLIER
  deriving DecidableEq

/-- The `.value` of an `ErrorType` member (`OUTLIER = "outliers"`). -/
def ErrorType.value : ErrorType → String
  | ErrorType.OUTLIER => "outliers"

/-- `Clean` enum of the source: the two supported cleaning methods. -/
inductive Clean where
  | FILTER
  | IMPUTE
  deriving DecidableEq

/-- The `.value` of a `Clean` member (`FILTER = "filter"`, `IMPUTE = "impute"`). -/
def Clean.value : Clean → String
  | Clean.FILTER => "filter"
  | Clean.IMPUTE => "impute"

/-- The cell of row `r` in the given column: `df[column]` for one row.
`none` when the column is absent (pandas would raise `KeyError`) or the row
is too short. -/
def column_cell {α : Type} (df : DataFrame α) (column : String) (r : Nat × List α) : Option α :=
  r.2.get? (df.cols.indexOf column)

/-- Whether the outlier predicate holds for row `r` over `column`:
one entry of the boolean mask `outlier_func(df[column])`. -/
def outlier_at {α : Type} (df : DataFrame α) (column : String) (outlier_func : α → Bool)
    (r : Nat × List α) : Bool :=
  match column_cell df column r with
  | some v => outlier_func v
  | none => false

/-- `df_copy[column].loc[outlier_func].index`: the index labels of the rows
whose column value satisfies the outlier predicate. -/
def outlier_indexes {α : Type} (df : DataFrame α) (column : String) (outlier_func : α → Bool) :
    List Nat :=
  (df.rows.filter (outlier_at df column outlier_func)).map Prod.fst

/-- `drop_outliers(input_df, column, outlier_func)` (source lines 59-64):
copies the frame, computes the index labels of the rows where the predicate
holds over `column`, and drops every row carrying one of those labels.
`none` models the `KeyError` raised when the column is absent. -/
def drop_outliers {α : Type} (input_df : DataFrame α) (column : String)
    (outlier_func : α → Bool) : Option (DataFrame α) :=
  if column ∈ input_df.cols then
    some (DataFrame.mk input_df.cols
      (input_df.rows.filter
        (fun r => !((outlier_indexes input_df column outlier_func).contains r.1))))
  else
    none

/-- `impute_outliers(input_df, column, constant, outlier_func)` (source
lines 67-72): copies the frame, computes the labels of the rows where the
predicate holds over `column`, and sets `column` to `constant` on every row
carrying one of those labels (`df_copy.loc[indexes, column] = constant`).
`none` models the `KeyError` raised when the column is absent. -/
def impute_outliers {α : Type} (input_df : DataFrame α) (column : String) (constant : α)
    (outlier_func : α → Bool) : Option (DataFrame α) :=
  if column ∈ input_df.cols then
    some (DataFrame.mk input_df.cols
      (input_df.rows.map
        (fun r =>
          if (outlier_indexes input_df column outlier_func).contains r.1 then
            (r.1, r.2.set (input_df.cols.indexOf column) constant)
          else r)))
  else
    none

/-- The `CleanLearn` analysis object.  `score_nodes_and_linenos` is the
mutable field `_score_nodes_and_linenos` (set by `generate_plans_to_try`,
read by `generate_final_report`).  The Python `_analysis_id` tuple is
derived data and is not modelled. -/
structure CleanLearn (α : Type) where
  column : String
  error : ErrorType
  cleanings : List Clean
  impute_constant : α
  outlier_func : α → Bool
  score_nodes_and_linenos : List (DagNode α × Option Nat)

/-- The shared `singleton` of `mlmq.execution._pipeline_executor`: the
monotonic id counters (`get_next_op_id`, `get_next_patch_id`) and the shared
results mapping `labels_to_extracted_plan_results`. -/
structure PipelineExecutor (α : Type) where
  next_op_id : Nat
  next_patch_id : Nat
  labels_to_extracted_plan_results : List (String × α)

/-- The pipeline patches built by this module.  Constructor arguments follow
the source call sites
`DataFiltering(patch_id, self, True, node, False, required_cols)` and
`DataProjection(patch_id, self, True, node, False, column, only_reads_column,
None)`; the `self` back-reference and the trailing `None` are omitted.  The
two boolean arguments record train/test-branch applicability (their exact
semantics live in `mlmq.execution._patches`, outside `src/`).  `extraction`
is the spec's non-mutating Extraction patch, carrying the full result label. -/
inductive Patch (α : Type) where
  | extraction (label : String) (node : DagNode α)
  | dataFiltering (patch_id : Nat) (flag_train : Bool) (node : DagNode α)
      (flag_test : Bool) (required_cols : List String)
  | dataProjection (patch_id : Nat) (flag_train : Bool) (node : DagNode α)
      (flag_test : Bool) (modified_column : String) (only_reads_column : List String)

/-- The DAG node attached to a patch. -/
def Patch.node {α : Type} : Patch α → DagNode α
  | Patch.extraction _ n => n
  | Patch.dataFiltering _ _ n _ _ => n
  | Patch.dataProjection _ _ n _ _ _ => n

/-- Python `f"{x}"` on an optional line number (`None` prints as "None"). -/
def pyStr : Option Nat → String
  | some n => toString n
  | none => "None"

/-- Python `f"{x}"` on an optional description string. -/
def pyStrS : Option String → String
  | some s => s
  | none => "None"

/-- The `(node, node.code_location.lineno)` pairs of the graph's SCORE
nodes (source line 100). -/
def score_nodes_linenos {α : Type} (g : Graph α) : List (DagNode α × Option Nat) :=
  (find_nodes_by_type g OperatorType.SCORE).map (fun n => (n, n.code_location.lineno))

/-- The identity keys used to detect ambiguous SCORE nodes: a node (keyed by
its id) together with its line number (source line 101). -/
def score_keys {α : Type} (g : Graph α) : List (Nat × Option Nat) :=
  (score_nodes_linenos g).map (fun p => (p.1.node_id, p.2))

/-- The per-variant result-label prefix
`f"data-cleaning-{column}-{cleaning.value}"` (source lines 110 and 135). -/
def cleaning_label (column : String) (c : Clean) : String :=
  "data-cleaning-" ++ column ++ "-" ++ c.value

/-- Modelled from the spec: the extraction-patch builder
`mlmq.analysis._patch_creation.get_intermediate_extraction_patch_after_score_nodes`
(not under `src/`): given a label prefix and the (SCORE node, lineno) pairs,
it returns one Extraction patch per pair, capturing that node's output under
the label `{prefix}_L{lineno}`.  The Python `singleton` and `self` arguments
are not needed by this model. -/
def get_intermediate_extraction_patch_after_score_nodes {α : Type} (label : String)
    (score_nodes_and_linenos : List (DagNode α × Option Nat)) : List (Patch α) :=
  score_nodes_and_linenos.map (fun p => Patch.extraction (label ++ "_L" ++ pyStr p.2) p.1)

/-- The required-columns computation of the FILTER branch (source lines
116-120): the deduplicated feature columns when the target column is itself
a feature column, else just the target column. -/
def filter_required_cols {α : Type} (g : Graph α) (column : String) : List String :=
  if column ∈ (get_columns_used_as_feature g).dedup then
    (get_columns_used_as_feature g).dedup
  else
    [column]

/-- The intervention patch of one cleaning method, given the op id and patch
id drawn from the shared counters (source lines 121-132 for FILTER, 141-152
for IMPUTE).  Note the code locations: `"Data Cleaning"` for the filter
node, `"DataCorruption"` for the impute node. -/
def mkIntervention {α : Type} (self : CleanLearn α) (g : Graph α) (c : Clean)
    (op_id patch_id : Nat) : Patch α :=
  match c with
  | Clean.FILTER =>
      Patch.dataFiltering patch_id true
        (DagNode.mk op_id
          (BasicCodeLocation.mk "Data Cleaning" none)
          (OperatorContext.mk OperatorType.SELECTION)
          (DagNodeDetails.mk (some ("Clean " ++ self.column ++ ": filter")) none)
          none
          (some (fun df => drop_outliers df self.column self.outlier_func)))
        false (filter_required_cols g self.column)
  | Clean.IMPUTE =>
      Patch.dataProjection patch_id true
        (DagNode.mk op_id
          (BasicCodeLocation.mk "DataCorruption" none)
          (OperatorContext.mk OperatorType.PROJECTION_MODIFY)
          (DagNodeDetails.mk (some ("Clean " ++ self.column ++ ": impute")) none)
          none
          (some (fun df => impute_outliers df self.column self.impute_constant self.outlier_func)))
        false self.column [self.column]

/-- One iteration of the cleaning loop (source lines 108-156): the variant's
patches (extraction patches followed by the intervention patch) and the
executor state after drawing one op id and one patch id. -/
def plan_variant {α : Type} (self : CleanLearn α) (g : Graph α)
    (snl : List (DagNode α × Option Nat)) (c : Clean) (st : PipelineExecutor α) :
    List (Patch α) × PipelineExecutor α :=
  (get_intermediate_extraction_patch_after_score_nodes (cleaning_label self.column c) snl
      ++ [mkIntervention self g c st.next_op_id st.next_patch_id],
   PipelineExecutor.mk (st.next_op_id + 1) (st.next_patch_id + 1)
     st.labels_to_extracted_plan_results)

/-- The cleaning loop over `self.cleanings`, threading the executor state. -/
def plans_loop {α : Type} (self : CleanLearn α) (g : Graph α)
    (snl : List (DagNode α × Option Nat)) :
    List Clean → PipelineExecutor α → List (List (Patch α)) × PipelineExecutor α
  | [], st => ([], st)
  | c :: rest, st =>
      let pv := plan_variant self g snl c st
      let tail := plans_loop self g snl rest pv.2
      (pv.1 :: tail.1, tail.2)

/-- Failures of plan generation, named after the specification's error
vocabulary (the Python code raises `Exception` with distinguishing
messages).  `UnknownCleaningMethod` has no inhabitant here because the
`Clean` enum is exhaustive, matching the unreachable `else` branch. -/
inductive PlanError where
  | MultiplePredictNodes
  | AmbiguousScoreNodeIdentity
  | UnsupportedErrorKind
  deriving DecidableEq

/-- `CleanLearn.generate_plans_to_try` (source lines 93-157): validates the
graph (exactly one PREDICT node; SCORE nodes uniquely keyed by (node, line);
error kind OUTLIER), records the (SCORE node, lineno) pairs on the analysis
object, and then builds one patch list per requested cleaning method, in
request order.  Returns the updated analysis object, the plan variants and
the updated executor state. -/
def generate_plans_to_try {α : Type} (self : CleanLearn α) (g : Graph α)
    (st : PipelineExecutor α) :
    Except PlanError (CleanLearn α × List (List (Patch α)) × PipelineExecutor α) :=
  if (find_nodes_by_type g OperatorType.PREDICT).length ≠ 1 then
    Except.error PlanError.MultiplePredictNodes
  else
    let snl := score_nodes_linenos g
    if (score_keys g).Nodup then
      if self.error ≠ ErrorType.OUTLIER then
        Except.error PlanError.UnsupportedErrorKind
      else
        let self2 := CleanLearn.mk self.column self.error self.cleanings
          self.impute_constant self.outlier_func snl
        let res := plans_loop self2 g snl self.cleanings st
        Except.ok (self2, res.1, res.2)
    else
      Except.error PlanError.AmbiguousScoreNodeIdentity

/-- Failure of report generation, named after the specification's error
vocabulary: a required label is absent from the shared results mapping (the
Python code hits a `KeyError` on
`singleton.labels_to_extracted_plan_results[label]`). -/
inductive ReportError where
  | MissingExtractedResult (label : String)
  deriving DecidableEq

/-- The final report: the three metadata columns followed by one metric
column per distinct `{description}_L{lineno}` name, in first-seen order
(the pandas `DataFrame({'corrupted_column': ..., 'error': ...,
'cleaning_method': ..., **metrics})` of source lines 189-192). -/
structure Report (α : Type) where
  corrupted_column : List (Option String)
  error : List (Option String)
  cleaning_method : List (Option String)
  metrics : List (String × List α)
  deriving DecidableEq

/-- Python dict lookup `m[k]` as an `Option` (dict keys are unique, so
first-match lookup agrees). -/
def lookup_label {α : Type} : List (String × α) → String → Option α
  | [], _ => none
  | (k, v) :: rest, k' => if k = k' then some v else lookup_label rest k'

/-- The metric-column update of the source
(`values = metrics.get(name, []); values.append(v); metrics[name] = values`):
append `v` to the column `k`, keeping dict insertion order (an existing key
keeps its position, a new key is appended at the end). -/
def dict_append {α : Type} : List (String × List α) → String → α → List (String × List α)
  | [], k, v => [(k, [v])]
  | (k', vs) :: rest, k, v =>
      if k' = k then (k', vs ++ [v]) :: rest else (k', vs) :: dict_append rest k v

/-- One pass over the (score description, lineno) pairs: for each pair, look
up the label `labelFor lineno` in the shared results mapping and append the
value to the metric column `{description}_L{lineno}` (source lines 171-176
with `labelFor = original_L...`, lines 183-188 with the per-cleaning label). -/
def metric_loop {α : Type} (results : List (String × α))
    (labelFor : Option Nat → String) :
    List (Option String × Option Nat) → List (String × List α) →
      Except ReportError (List (String × List α))
  | [], metrics => Except.ok metrics
  | (desc, ln) :: rest, metrics =>
      match lookup_label results (labelFor ln) with
      | none => Except.error (ReportError.MissingExtractedResult (labelFor ln))
      | some v =>
          metric_loop results labelFor rest
            (dict_append metrics (pyStrS desc ++ "_L" ++ pyStr ln) v)

/-- The cleaning loop of report generation (source lines 178-188): for each
cleaning method in request order, append one metadata row and the method's
metric values. -/
def report_cleaning_loop {α : Type} (self : CleanLearn α) (results : List (String × α))
    (sdl : List (Option String × Option Nat)) :
    List Clean →
      List (Option String) × List (Option String) × List (Option String) ×
        List (String × List α) →
      Except ReportError
        (List (Option String) × List (Option String) × List (Option String) ×
          List (String × List α))
  | [], acc => Except.ok acc
  | c :: rest, (cols, errs, meths, metrics) =>
      match metric_loop results
          (fun ln => cleaning_label self.column c ++ "_L" ++ pyStr ln) sdl metrics with
      | Except.error e => Except.error e
      | Except.ok metrics2 =>
          report_cleaning_loop self results sdl rest
            (cols ++ [some self.column], errs ++ [some self.error.value],
             meths ++ [some c.value], metrics2)

/-- The `(score_node.details.description, lineno)` pairs of the recorded
score nodes (source lines 165-166). -/
def score_desc_linenos {α : Type} (self : CleanLearn α) : List (Option String × Option Nat) :=
  self.score_nodes_and_linenos.map (fun p => (p.1.details.description, p.2))

set_option linter.unusedVariables false in
/-- `CleanLearn.generate_final_report` (source lines 159-193).  Row 0 gets
null metadata and the baseline values `original_L{lineno}`; then one row per
cleaning method with metadata `(column, error.value, cleaning.value)` and
the values `data-cleaning-{column}-{method}_L{lineno}`.  Every metric value
is looked up in the shared `singleton.labels_to_extracted_plan_results`; the
`extracted_plan_results` argument is not consulted, exactly as in the
source. -/
def generate_final_report {α : Type} (self : CleanLearn α) (st : PipelineExecutor α)
    (extracted_plan_results : List (String × α)) : Except ReportError (Report α) :=
  match metric_loop st.labels_to_extracted_plan_results
      (fun ln => "original_L" ++ pyStr ln) (score_desc_linenos self) [] with
  | Except.error e => Except.error e
  | Except.ok m0 =>
      match report_cleaning_loop self st.labels_to_extracted_plan_results
          (score_desc_linenos self) self.cleanings ([none], [none], [none], m0) with
      | Except.error e => Except.error e
      | Except.ok (cols, errs, meths, metrics) => Except.ok (Report.mk cols errs meths metrics)

/-- All labels report generation looks up: one baseline label per score
node, then one label per (cleaning method, score node) pair. -/
def report_required_labels {α : Type} (self : CleanLearn α) : List String :=
  (score_desc_linenos self).map (fun p => "original_L" ++ pyStr p.2) ++
    (self.cleanings.map (fun c =>
      (score_desc_linenos self).map
        (fun p => cleaning_label self.column c ++ "_L" ++ pyStr p.2))).flatten

/-- The SCORE node of the end-to-end scenario: description "accuracy",
source line 42. -/
def accuracy_score_node : DagNode Rat :=
  DagNode.mk 1 (BasicCodeLocation.mk "pipeline.py" (some 42))
    (OperatorContext.mk OperatorType.SCORE)
    (DagNodeDetails.mk (some "accuracy") none) none none

/-- The analysis of the end-to-end scenario: target column "age", error
kind OUTLIER, cleanings `[FILTER, IMPUTE]`, with the score node recorded. -/
def end_to_end_analysis : CleanLearn Rat :=
  CleanLearn.mk "age" ErrorType.OUTLIER [Clean.FILTER, Clean.IMPUTE] 0
    (fun _ => false) [(accuracy_score_node, some 42)]

/-- The shared executor state of the end-to-end scenario, holding the three
extracted results. -/
def end_to_end_state : PipelineExecutor Rat :=
  PipelineExecutor.mk 2 1
    [("original_L42", 80/100),
     ("data-cleaning-age-filter_L42", 83/100),
     ("data-cleaning-age-impute_L42", 81/100)]

/-- Claim C1: the end-to-end report.  With a single SCORE node described
"accuracy" at line 42, cleanings `[FILTER, IMPUTE]`, column "age" and the
three extracted results, `generate_final_report` returns the table with
columns `[corrupted_column, error, cleaning_method, accuracy_L42]` and rows
`(None, None, None, 0.80)`, `("age", "outliers", "filter", 0.83)`,
`("age", "outliers", "impute", 0.81)`, baseline first and one row per
cleaning method in request order. -/
theorem end_to_end_report_correct :
    generate_final_report end_to_end_analysis end_to_end_state [] =
      Except.ok (Report.mk
        [none, some "age", some "age"]
        [none, some "outliers", some "outliers"]
        [none, some "filter", some "impute"]
        [("accuracy_L42", [80/100, 83/100, 81/100])]) := by
  rfl

/-- Claim C10: the report is independent of the `extracted_plan_results`
argument.  With the same analysis object and the same shared executor state
(holding the singleton's `labels_to_extracted_plan_results`), any two
mappings passed as that argument yield the identical result, because every
metric value is looked up in the shared singleton mapping. -/
theorem report_ignores_results_argument {α : Type} (self : CleanLearn α)
    (st : PipelineExecutor α) (a b : List (String × α)) :
    generate_final_report self st a = generate_final_report self st b :=
  rfl

/-- Claim C7: a graph whose PREDICT-node count differs from 1 makes plan
generation fail with `MultiplePredictNodes`, returning no plan variants. -/
theorem multiple_predict_nodes_rejected {α : Type} (self : CleanLearn α) (g : Graph α)
    (st : PipelineExecutor α)
    (h : (find_nodes_by_type g OperatorType.PREDICT).length ≠ 1) :
    generate_plans_to_try self g st = Except.error PlanError.MultiplePredictNodes := by
  unfold generate_plans_to_try
  rw [if_pos h]

/-- A PREDICT node for the two-PREDICT scenario. -/
def predict_node (i : Nat) : DagNode Rat :=
  DagNode.mk i (BasicCodeLocation.mk "pipeline.py" (some 7))
    (OperatorContext.mk OperatorType.PREDICT)
    (DagNodeDetails.mk (some "predict") none) none none

/-- A graph with two PREDICT nodes. -/
def two_predicts_graph : Graph Rat :=
  Graph.mk [predict_node 1, predict_node 2] []

/-- Witness for claim C7: a concrete graph with two PREDICT nodes is
rejected with `MultiplePredictNodes`. -/
theorem multiple_predict_nodes_rejected_witness :
    (find_nodes_by_type two_predicts_graph OperatorType.PREDICT).length ≠ 1 ∧
      generate_plans_to_try end_to_end_analysis two_predicts_graph
          (PipelineExecutor.mk 0 0 []) =
        Except.error PlanError.MultiplePredictNodes :=
  ⟨by decide,
   multiple_predict_nodes_rejected end_to_end_analysis two_predicts_graph
     (PipelineExecutor.mk 0 0 []) (by decide)⟩

/-- Claim C6: the IMPUTE intervention's DataProjection patch declares
exactly one read column and exactly one written column, both equal to the
target column. -/
theorem impute_patch_reads_writes_target {α : Type} (self : CleanLearn α) (g : Graph α)
    (a b : Nat) :
    ∃ node, mkIntervention self g Clean.IMPUTE a b =
      Patch.dataProjection b true node false self.column [self.column] :=
  ⟨_, rfl⟩

/-- Claim C5: the FILTER intervention's required-columns set equals the full
feature-column set exactly when the target column is itself a feature
column; otherwise it is the singleton of the target column. -/
theorem filter_required_cols_spec {α : Type} (g : Graph α) (column : String) :
    ((filter_required_cols g column).toFinset =
        (get_columns_used_as_feature g).toFinset ↔
      column ∈ get_columns_used_as_feature g) ∧
    (column ∉ get_columns_used_as_feature g →
      filter_required_cols g column = [column]) := by
  constructor
  · constructor
    · intro h
      by_contra hc
      have hnd : column ∉ (get_columns_used_as_feature g).dedup :=
        fun hm => hc (List.mem_dedup.mp hm)
      unfold filter_required_cols at h
      rw [if_neg hnd] at h
      have hmem : column ∈ (get_columns_used_as_feature g).toFinset := by
        rw [← h]
        simp
      exact hc (List.mem_toFinset.mp hmem)
    · intro h
      unfold filter_required_cols
      rw [if_pos (List.mem_dedup.mpr h)]
      ext x
      simp [List.mem_toFinset, List.mem_dedup]
  · intro h
    unfold filter_required_cols
    rw [if_neg (fun hm => h (List.mem_dedup.mp hm))]

/-- A graph whose single feature column is "height". -/
def height_feature_graph : Graph Rat :=
  Graph.mk [] ["height"]

/-- Witness for claim C5: when the target column "age" is not a feature
column, the FILTER patch requires exactly `["age"]`. -/
theorem filter_required_cols_spec_witness :
    "age" ∉ get_columns_used_as_feature height_feature_graph ∧
      filter_required_cols height_feature_graph "age" = ["age"] :=
  ⟨by decide, (filter_required_cols_spec height_feature_graph "age").2 (by decide)⟩

/-- An empty graph (no nodes, no feature columns). -/
def empty_graph : Graph Rat :=
  Graph.mk [] []

/-- Counterexample to claim C9: the synthetic node built for the IMPUTE
intervention does not carry a "Data Cleaning" code-location tag (the source
tags it "DataCorruption", line 145). -/
theorem impute_node_not_tagged_data_cleaning :
    (mkIntervention end_to_end_analysis empty_graph Clean.IMPUTE 5 6).node.code_location.caller_filename ≠
      "Data Cleaning" := by
  decide

/-- Claim C9 (amended): each synthetic intervention node carries the fresh
op id, operator kind SELECTION for filter and PROJECTION_MODIFY for impute,
description `"Clean {column}: {method}"`, and the bound transform; the
code-location tag is "Data Cleaning" for the FILTER node but "DataCorruption"
for the IMPUTE node. -/
theorem intervention_node_fields {α : Type} (self : CleanLearn α) (g : Graph α)
    (a b : Nat) :
    (mkIntervention self g Clean.FILTER a b).node =
      DagNode.mk a (BasicCodeLocation.mk "Data Cleaning" none)
        (OperatorContext.mk OperatorType.SELECTION)
        (DagNodeDetails.mk (some ("Clean " ++ self.column ++ ": filter")) none) none
        (some (fun df => drop_outliers df self.column self.outlier_func)) ∧
    (mkIntervention self g Clean.IMPUTE a b).node =
      DagNode.mk a (BasicCodeLocation.mk "DataCorruption" none)
        (OperatorContext.mk OperatorType.PROJECTION_MODIFY)
        (DagNodeDetails.mk (some ("Clean " ++ self.column ++ ": impute")) none) none
        (some (fun df => impute_outliers df self.column self.impute_constant self.outlier_func)) :=
  ⟨rfl, rfl⟩

/-- Membership in `outlier_indexes`: exactly the labels of rows whose column
value satisfies the predicate. -/
theorem mem_outlier_indexes {α : Type} (df : DataFrame α) (column : String)
    (p : α → Bool) (x : Nat) :
    x ∈ outlier_indexes df column p ↔
      ∃ r ∈ df.rows, outlier_at df column p r = true ∧ r.1 = x := by
  unfold outlier_indexes
  constructor
  · intro h
    obtain ⟨r, hr, hx⟩ := List.mem_map.mp h
    exact ⟨r, (List.mem_filter.mp hr).1, (List.mem_filter.mp hr).2, hx⟩
  · intro ⟨r, hr, hout, hx⟩
    exact List.mem_map.mpr ⟨r, List.mem_filter.mpr ⟨hr, hout⟩, hx⟩

/-- With pairwise-distinct index labels, a row's label is among the outlier
labels exactly when the row itself satisfies the predicate. -/
theorem contains_outlier_indexes_eq {α : Type} (df : DataFrame α) (column : String)
    (p : α → Bool) (hnd : (df.rows.map Prod.fst).Nodup)
    (r : Nat × List α) (hr : r ∈ df.rows) :
    (outlier_indexes df column p).contains r.1 = outlier_at df column p r := by
  by_cases h : outlier_at df column p r = true
  · rw [h]
    exact List.elem_iff.mpr ((mem_outlier_indexes df column p r.1).mpr ⟨r, hr, h, rfl⟩)
  · rw [Bool.eq_false_iff.mpr h]
    rw [Bool.eq_false_iff]
    intro hc
    obtain ⟨r', hr', hout, hx⟩ := (mem_outlier_indexes df column p r.1).mp (List.elem_iff.mp hc)
    have : r' = r := List.inj_on_of_nodup_map hnd hr' hr hx
    exact h (this ▸ hout)

/-- Claim C3 (amended): on a dataframe that contains the column and whose
row index labels are pairwise distinct, `drop_outliers` keeps exactly the
rows where the predicate does not hold, all retained rows and all columns
unchanged, and returns the input unchanged when the predicate selects no
rows. -/
theorem drop_outliers_spec {α : Type} (df : DataFrame α) (column : String) (p : α → Bool)
    (hcol : column ∈ df.cols) (hnd : (df.rows.map Prod.fst).Nodup) :
    drop_outliers df column p =
      some (DataFrame.mk df.cols
        (df.rows.filter (fun r => !(outlier_at df column p r)))) ∧
    ((∀ r ∈ df.rows, outlier_at df column p r = false) →
      drop_outliers df column p = some df) := by
  constructor
  · unfold drop_outliers
    rw [if_pos hcol]
    have hflt : df.rows.filter (fun r => !((outlier_indexes df column p).contains r.1)) =
        df.rows.filter (fun r => !(outlier_at df column p r)) :=
      List.filter_congr (fun r hr => by
        rw [contains_outlier_indexes_eq df column p hnd r hr])
    rw [hflt]
  · intro h
    unfold drop_outliers
    rw [if_pos hcol]
    have hflt : df.rows.filter (fun r => !((outlier_indexes df column p).contains r.1)) =
        df.rows := by
      rw [List.filter_eq_self]
      intro r hr
      rw [contains_outlier_indexes_eq df column p hnd r hr, h r hr]
      rfl
    rw [hflt]

/-- What one row becomes under `impute_outliers` when index labels are
unique: the target cell is set to the constant exactly when the predicate
holds on the row. -/
def imputed_row {α : Type} (df : DataFrame α) (column : String) (constant : α)
    (p : α → Bool) (r : Nat × List α) : Nat × List α :=
  if outlier_at df column p r then (r.1, r.2.set (df.cols.indexOf column) constant) else r

/-- Claim C4 (amended): on a dataframe that contains the column and whose
row index labels are pairwise distinct, `impute_outliers` preserves the row
count and row identity, rewrites the target column to the constant exactly
on the rows where the predicate holds, and leaves every other cell
unchanged. -/
theorem impute_outliers_spec {α : Type} (df : DataFrame α) (column : String) (constant : α)
    (p : α → Bool) (hcol : column ∈ df.cols) (hnd : (df.rows.map Prod.fst).Nodup) :
    impute_outliers df column constant p =
      some (DataFrame.mk df.cols (df.rows.map (imputed_row df column constant p))) ∧
    (df.rows.map (imputed_row df column constant p)).map Prod.fst =
      df.rows.map Prod.fst ∧
    (∀ r : Nat × List α, outlier_at df column p r = false →
      imputed_row df column constant p r = r) ∧
    (∀ r : Nat × List α, ∀ j : Nat, j ≠ df.cols.indexOf column →
      (imputed_row df column constant p r).2[j]? = r.2[j]?) := by
  refine ⟨?_, ?_, ?_, ?_⟩
  · unfold impute_outliers
    rw [if_pos hcol]
    have hmap : df.rows.map (fun r =>
        if (outlier_indexes df column p).contains r.1 then
          (r.1, r.2.set (df.cols.indexOf column) constant)
        else r) = df.rows.map (imputed_row df column constant p) := by
      apply List.map_congr_left
      intro r hr
      unfold imputed_row
      rw [contains_outlier_indexes_eq df column p hnd r hr]
    rw [hmap]
  · rw [List.map_map]
    apply List.map_congr_left
    intro r _
    show (imputed_row df column constant p r).1 = r.1
    unfold imputed_row
    by_cases h : outlier_at df column p r = true
    · rw [if_pos h]
    · rw [if_neg h]
  · intro r h
    unfold imputed_row
    rw [if_neg (by simp [h])]
  · intro r j hj
    unfold imputed_row
    by_cases h : outlier_at df column p r = true
    · rw [if_pos h]
      exact List.getElem?_set_ne (Ne.symm hj)
    · rw [if_neg h]

/-- A one-column dataframe with distinct row index labels. -/
def unique_index_df : DataFrame Int :=
  DataFrame.mk ["age"] [(0, [1]), (1, [5])]

/-- A one-column dataframe whose two rows share the index label 0
(pandas permits duplicate index labels). -/
def dup_index_df : DataFrame Int :=
  DataFrame.mk ["age"] [(0, [1]), (0, [5])]

/-- The outlier predicate "value greater than three". -/
def gt_three : Int → Bool :=
  fun v => decide (3 < v)

/-- Counterexample to claim C3: with duplicate index labels, `drop_outliers`
does not keep exactly the non-outlier rows.  On `[(0, [1]), (0, [5])]` with
predicate `3 < v`, the outlier label set is `{0}`, so the `drop` removes
both rows, including `(0, [1])` where the predicate does not hold. -/
theorem drop_outliers_dup_labels_counterexample :
    drop_outliers dup_index_df "age" gt_three = some (DataFrame.mk ["age"] []) ∧
      drop_outliers dup_index_df "age" gt_three ≠
        some (DataFrame.mk dup_index_df.cols
          (dup_index_df.rows.filter (fun r => !(outlier_at dup_index_df "age" gt_three r)))) := by
  constructor
  · decide
  · decide

/-- Witness for claim C3 (amended): on a dataframe with distinct labels the
theorem applies and yields the exact filtered rows. -/
theorem drop_outliers_spec_witness :
    ("age" ∈ unique_index_df.cols ∧ (unique_index_df.rows.map Prod.fst).Nodup) ∧
      (drop_outliers unique_index_df "age" gt_three =
        some (DataFrame.mk unique_index_df.cols
          (unique_index_df.rows.filter
            (fun r => !(outlier_at unique_index_df "age" gt_three r)))) ∧
      ((∀ r ∈ unique_index_df.rows, outlier_at unique_index_df "age" gt_three r = false) →
        drop_outliers unique_index_df "age" gt_three = some unique_index_df)) :=
  ⟨⟨by decide, by decide⟩,
   drop_outliers_spec unique_index_df "age" gt_three (by decide) (by decide)⟩

/-- Counterexample to claim C4: with duplicate index labels,
`impute_outliers` does not rewrite the column only at the predicate rows.
On `[(0, [1]), (0, [5])]` with predicate `3 < v` and constant 9, the
outlier label set is `{0}`, so `.loc` rewrites both rows, including
`(0, [1])` where the predicate does not hold. -/
theorem impute_outliers_dup_labels_counterexample :
    impute_outliers dup_index_df "age" 9 gt_three =
        some (DataFrame.mk ["age"] [(0, [9]), (0, [9])]) ∧
      impute_outliers dup_index_df "age" 9 gt_three ≠
        some (DataFrame.mk dup_index_df.cols
          (dup_index_df.rows.map (imputed_row dup_index_df "age" 9 gt_three))) := by
  constructor
  · decide
  · decide

/-- Witness for claim C4 (amended): on a dataframe with distinct labels the
theorem applies. -/
theorem impute_outliers_spec_witness :
    ("age" ∈ unique_index_df.cols ∧ (unique_index_df.rows.map Prod.fst).Nodup) ∧
      (impute_outliers unique_index_df "age" 9 gt_three =
        some (DataFrame.mk unique_index_df.cols
          (unique_index_df.rows.map (imputed_row unique_index_df "age" 9 gt_three))) ∧
      (unique_index_df.rows.map (imputed_row unique_index_df "age" 9 gt_three)).map Prod.fst =
        unique_index_df.rows.map Prod.fst ∧
      (∀ r : Nat × List Int, outlier_at unique_index_df "age" gt_three r = false →
        imputed_row unique_index_df "age" 9 gt_three r = r) ∧
      (∀ r : Nat × List Int, ∀ j : Nat, j ≠ unique_index_df.cols.indexOf "age" →
        (imputed_row unique_index_df "age" 9 gt_three r).2[j]? = r.2[j]?)) :=
  ⟨⟨by decide, by decide⟩,
   impute_outliers_spec unique_index_df "age" 9 gt_three (by decide) (by decide)⟩

/-- The cleaning loop yields one plan variant per requested cleaning. -/
theorem plans_loop_length {α : Type} (self : CleanLearn α) (g : Graph α)
    (snl : List (DagNode α × Option Nat)) (cs : List Clean) (st : PipelineExecutor α) :
    (plans_loop self g snl cs st).1.length = cs.length := by
  induction cs generalizing st with
  | nil => rfl
  | cons c rest ih => simp [plans_loop, ih]

/-- Each variant produced by the cleaning loop is the extraction patches of
its method's label followed by that method's single intervention patch. -/
theorem plans_loop_get {α : Type} (self : CleanLearn α) (g : Graph α)
    (snl : List (DagNode α × Option Nat)) :
    ∀ (cs : List Clean) (st : PipelineExecutor α) (i : Nat)
      (hi : i < (plans_loop self g snl cs st).1.length) (hi2 : i < cs.length),
      ∃ a b, (plans_loop self g snl cs st).1.get ⟨i, hi⟩ =
        get_intermediate_extraction_patch_after_score_nodes
          (cleaning_label self.column (cs.get ⟨i, hi2⟩)) snl ++
        [mkIntervention self g (cs.get ⟨i, hi2⟩) a b] := by
  intro cs
  induction cs with
  | nil =>
      intro st i hi hi2
      exact absurd hi2 (by simp)
  | cons c rest ih =>
      intro st i hi hi2
      cases i with
      | zero => exact ⟨st.next_op_id, st.next_patch_id, rfl⟩
      | succ n =>
          have hi3 : n < (plans_loop self g snl rest (plan_variant self g snl c st).2).1.length := by
            have := hi
            simp only [plans_loop, List.length_cons] at this
            exact Nat.lt_of_succ_lt_succ this
          exact ih (plan_variant self g snl c st).2 n hi3 (Nat.lt_of_succ_lt_succ hi2)

set_option linter.unusedVariables false in
/-- Claim C2: on a graph with exactly one PREDICT node and uniquely keyed
SCORE nodes, for a spec with error kind OUTLIER whose cleanings lie in
{FILTER, IMPUTE}, plan generation succeeds with exactly one variant per
requested cleaning, in request order, each variant being the extraction
patches followed by that method's single intervention patch. -/
theorem generate_plans_variant_shape {α : Type} (self : CleanLearn α) (g : Graph α)
    (st : PipelineExecutor α)
    (h1 : (find_nodes_by_type g OperatorType.PREDICT).length = 1)
    (h2 : (score_keys g).Nodup)
    (h3 : self.error = ErrorType.OUTLIER)
    (h4 : ∀ c ∈ self.cleanings, c = Clean.FILTER ∨ c = Clean.IMPUTE) :
    ∃ self2 plans st2,
      generate_plans_to_try self g st = Except.ok (self2, plans, st2) ∧
      plans.length = self.cleanings.length ∧
      ∀ (i : Nat) (hi : i < plans.length) (hi2 : i < self.cleanings.length),
        ∃ a b, plans.get ⟨i, hi⟩ =
          get_intermediate_extraction_patch_after_score_nodes
            (cleaning_label self.column (self.cleanings.get ⟨i, hi2⟩))
            (score_nodes_linenos g) ++
          [mkIntervention self2 g (self.cleanings.get ⟨i, hi2⟩) a b] := by
  refine ⟨CleanLearn.mk self.column self.error self.cleanings self.impute_constant
      self.outlier_func (score_nodes_linenos g),
    (plans_loop (CleanLearn.mk self.column self.error self.cleanings self.impute_constant
        self.outlier_func (score_nodes_linenos g)) g (score_nodes_linenos g)
      self.cleanings st).1,
    (plans_loop (CleanLearn.mk self.column self.error self.cleanings self.impute_constant
        self.outlier_func (score_nodes_linenos g)) g (score_nodes_linenos g)
      self.cleanings st).2, ?_, ?_, ?_⟩
  · unfold generate_plans_to_try
    rw [if_neg (fun hne => hne h1), if_pos h2, if_neg (fun hne => hne h3)]
  · exact plans_loop_length _ _ _ _ _
  · exact plans_loop_get _ _ _ _ _

/-- A graph with exactly one PREDICT node and one SCORE node ("accuracy" at
line 42), whose feature columns are `["age"]`. -/
def one_predict_graph : Graph Rat :=
  Graph.mk [predict_node 0, accuracy_score_node] ["age"]

/-- Witness for claim C2: the concrete one-PREDICT/one-SCORE graph with the
`[FILTER, IMPUTE]` spec satisfies the hypotheses and yields the plan
variants. -/
theorem generate_plans_variant_shape_witness :
    ((find_nodes_by_type one_predict_graph OperatorType.PREDICT).length = 1 ∧
      (score_keys one_predict_graph).Nodup ∧
      end_to_end_analysis.error = ErrorType.OUTLIER ∧
      (∀ c ∈ end_to_end_analysis.cleanings, c = Clean.FILTER ∨ c = Clean.IMPUTE)) ∧
    (∃ self2 plans st2,
      generate_plans_to_try end_to_end_analysis one_predict_graph
          (PipelineExecutor.mk 10 20 []) = Except.ok (self2, plans, st2) ∧
      plans.length = end_to_end_analysis.cleanings.length ∧
      ∀ (i : Nat) (hi : i < plans.length)
        (hi2 : i < end_to_end_analysis.cleanings.length),
        ∃ a b, plans.get ⟨i, hi⟩ =
          get_intermediate_extraction_patch_after_score_nodes
            (cleaning_label end_to_end_analysis.column
              (end_to_end_analysis.cleanings.get ⟨i, hi2⟩))
            (score_nodes_linenos one_predict_graph) ++
          [mkIntervention self2 one_predict_graph
            (end_to_end_analysis.cleanings.get ⟨i, hi2⟩) a b]) :=
  ⟨⟨by decide, by decide, by decide, by decide⟩,
   generate_plans_variant_shape end_to_end_analysis one_predict_graph
     (PipelineExecutor.mk 10 20 []) (by decide) (by decide) (by decide) (by decide)⟩

/-- If a metric pass succeeds, every label it was asked to look up is
present in the results mapping. -/
theorem metric_loop_ok_labels {α : Type} (results : List (String × α))
    (labelFor : Option Nat → String) :
    ∀ (sdl : List (Option String × Option Nat)) (metrics m2 : List (String × List α)),
      metric_loop results labelFor sdl metrics = Except.ok m2 →
      ∀ p ∈ sdl, lookup_label results (labelFor p.2) ≠ none := by
  intro sdl
  induction sdl with
  | nil =>
      intro metrics m2 h p hp
      exact absurd hp (List.not_mem_nil p)
  | cons q rest ih =>
      intro metrics m2 h p hp
      obtain ⟨desc, ln⟩ := q
      simp only [metric_loop] at h
      cases hq : lookup_label results (labelFor ln) with
      | none =>
          rw [hq] at h
          exact absurd h (by simp)
      | some v =>
          rw [hq] at h
          rcases List.mem_cons.mp hp with hcase | hcase
          · rw [hcase]
            rw [hq]
            exact Option.some_ne_none v
          · exact ih _ _ h p hcase

/-- If the report's cleaning loop succeeds, every per-cleaning label it was
asked to look up is present in the results mapping. -/
theorem report_cleaning_loop_ok_labels {α : Type} (self : CleanLearn α)
    (results : List (String × α)) (sdl : List (Option String × Option Nat)) :
    ∀ (cs : List Clean)
      (acc out : List (Option String) × List (Option String) × List (Option String) ×
        List (String × List α)),
      report_cleaning_loop self results sdl cs acc = Except.ok out →
      ∀ c ∈ cs, ∀ p ∈ sdl,
        lookup_label results (cleaning_label self.column c ++ "_L" ++ pyStr p.2) ≠ none := by
  intro cs
  induction cs with
  | nil =>
      intro acc out h c hc
      exact absurd hc (List.not_mem_nil c)
  | cons c0 rest ih =>
      intro acc out h c hc p hp
      obtain ⟨cols, errs, meths, metrics⟩ := acc
      simp only [report_cleaning_loop] at h
      cases hm : metric_loop results
          (fun ln => cleaning_label self.column c0 ++ "_L" ++ pyStr ln) sdl metrics with
      | error e =>
          rw [hm] at h
          exact absurd h (by simp)
      | ok m2 =>
          rw [hm] at h
          rcases List.mem_cons.mp hc with hcase | hcase
          · rw [hcase]
            exact metric_loop_ok_labels results _ sdl metrics m2 hm p hp
          · exact ih _ _ h c hcase p hp

/-- Claim C8: when any required label (a baseline `original_L{line}` or a
variant `data-cleaning-{column}-{method}_L{line}`) is absent from the shared
results mapping, report generation fails with `MissingExtractedResult` and
produces no table (no default is substituted for the missing entry). -/
theorem missing_label_fails_report {α : Type} (self : CleanLearn α)
    (st : PipelineExecutor α) (arg : List (String × α))
    (h : ∃ l ∈ report_required_labels self,
      lookup_label st.labels_to_extracted_plan_results l = none) :
    ∃ l2, generate_final_report self st arg =
      Except.error (ReportError.MissingExtractedResult l2) := by
  cases hres : generate_final_report self st arg with
  | error e =>
      cases e with
      | MissingExtractedResult l2 => exact ⟨l2, rfl⟩
  | ok r =>
      exfalso
      obtain ⟨l, hl, hnone⟩ := h
      unfold generate_final_report at hres
      split at hres
      · exact absurd hres (by simp)
      · next m0 hb =>
          split at hres
          · exact absurd hres (by simp)
          · next cols errs meths metrics hcl =>
              unfold report_required_labels at hl
              rcases List.mem_append.mp hl with hcase | hcase
              · obtain ⟨p, hp, hpl⟩ := List.mem_map.mp hcase
                rw [← hpl] at hnone
                exact metric_loop_ok_labels st.labels_to_extracted_plan_results
                  _ (score_desc_linenos self) [] m0 hb p hp hnone
              · obtain ⟨ls, hls, hlmem⟩ := List.mem_flatten.mp hcase
                obtain ⟨c, hc, hcls⟩ := List.mem_map.mp hls
                rw [← hcls] at hlmem
                obtain ⟨p, hp, hpl⟩ := List.mem_map.mp hlmem
                rw [← hpl] at hnone
                exact report_cleaning_loop_ok_labels self
                  st.labels_to_extracted_plan_results (score_desc_linenos self)
                  self.cleanings ([none], [none], [none], m0)
                  (cols, errs, meths, metrics) hcl c hc p hp hnone

/-- The shared results mapping of the end-to-end scenario with the label
"data-cleaning-age-impute_L42" absent. -/
def missing_label_state : PipelineExecutor Rat :=
  PipelineExecutor.mk 2 1
    [("original_L42", 80/100), ("data-cleaning-age-filter_L42", 83/100)]

/-- Witness for claim C8: with "data-cleaning-age-impute_L42" absent from
the shared mapping, report generation fails with `MissingExtractedResult`. -/
theorem missing_label_fails_report_witness :
    (∃ l ∈ report_required_labels end_to_end_analysis,
      lookup_label missing_label_state.labels_to_extracted_plan_results l = none) ∧
    (∃ l2, generate_final_report end_to_end_analysis missing_label_state [] =
      Except.error (ReportError.MissingExtractedResult l2)) :=
  ⟨by decide,
   missing_label_fails_report end_to_end_analysis missing_label_state [] (by decide)⟩
